import Mathlib

/-!
# SchemaHero: the `Database` coordinator (pkg/database/database.go)

A shallow embedding of the reconciliation orchestrator and of the fixture
batch generator, followed by theorems about them.

Conventions of the embedding

* A Go pointer `*T` is an `Option T` (`none` is `nil`).  Reading a field through
  a nil pointer is the outcome `Outcome.panicked`.
* A Go `[]string` result is an `Option (List String)`: `none` is the nil slice,
  `some []` is the empty non-nil slice `[]string{}`.
* The drivers (packages postgres, mysql, cassandra, sqlite, rqlite,
  timescaledb), the YAML decoder and the file system live outside this file of
  the repository.  A call to one of them is an `Event` in the trace of the run,
  and what it returns is read from a `World` of responses, which every
  definition takes as a parameter.
* `ctx` is the list of spans started so far; `otel.Tracer(..).Start(ctx, n)`
  extends it by `n`.  Logging has no effect on any value and is left out.
-/

namespace SchemaHero

/-! ## Errors, contexts, outcomes -/

/-- Go `error` values, by the way they are built.  `New`, `Errorf` and `Wrap`
are the three constructors of github.com/pkg/errors used by the coordinator
(`Errorf` always with one `%q` argument); `SkipDir` and `SkipAll` are the two
sentinel values of path/filepath, which `filepath.Walk` compares the result of
its walk function with; `Foreign` is any other error made elsewhere (a driver,
the YAML decoder, the operating system). -/
inductive GoError where
  | New (msg : String)
  | Errorf (format : String) (arg : String)
  | Wrap (cause : GoError) (msg : String)
  | SkipDir
  | SkipAll
  | Foreign (msg : String)
  deriving DecidableEq, Repr

/-- A `context.Context`, reduced to the spans opened on it. -/
structure Context where
  spans : List String
  deriving DecidableEq, Repr

/-- The context returned by `otel.Tracer(trace.TraceName).Start(ctx, name)`. -/
def Context.start (ctx : Context) (name : String) : Context :=
  ⟨ctx.spans ++ [name]⟩

/-- How a Go call ends: by returning, or by a nil-pointer dereference. -/
inductive Outcome (α : Type) where
  | panicked
  | returned (value : α)
  deriving DecidableEq, Repr

/-! ## Data model (pkg/apis/schemas/v1alpha4, as far as database.go reads it) -/

/-- Modelled from the spec: the type `PostgresqlTableSchema` of
pkg/apis/schemas/v1alpha4, whose declaration is not in src.  The spec calls a
dialect schema a value the core only passes on to the driver, so it is a
payload the coordinator never inspects. -/
structure PostgresqlTableSchema where
  payload : String
  deriving DecidableEq, Repr

/-- Modelled from the spec: the type `MysqlTableSchema`, declared outside src;
a payload handed to the mysql driver. -/
structure MysqlTableSchema where
  payload : String
  deriving DecidableEq, Repr

/-- Modelled from the spec: the type `CassandraTableSchema`, declared outside
src; a payload handed to the cassandra driver. -/
structure CassandraTableSchema where
  payload : String
  deriving DecidableEq, Repr

/-- Modelled from the spec: the type `SqliteTableSchema`, declared outside src;
a payload handed to the sqlite driver. -/
structure SqliteTableSchema where
  payload : String
  deriving DecidableEq, Repr

/-- Modelled from the spec: the type `RqliteTableSchema`, declared outside src;
a payload handed to the rqlite driver. -/
structure RqliteTableSchema where
  payload : String
  deriving DecidableEq, Repr

/-- Modelled from the spec: the type `TimescaleDBTableSchema`, declared outside
src; a payload handed to the timescaledb driver. -/
structure TimescaleDBTableSchema where
  payload : String
  deriving DecidableEq, Repr

/-- Modelled from the spec: the type `CassandraDataTypeSchema`, declared
outside src; a payload handed to the cassandra driver. -/
structure CassandraDataTypeSchema where
  payload : String
  deriving DecidableEq, Repr

/-- Modelled from the spec: the type `SeedData`, declared outside src; the
desired rows, a payload handed to the driver. -/
structure SeedData where
  payload : String
  deriving DecidableEq, Repr

/-- The struct `TableSchema`: one pointer field per dialect.  `Postgres` and
`CockroachDB` have the same type, since database.go hands either of them to
`postgres.CreateTableStatements`. -/
structure TableSchema where
  Postgres : Option PostgresqlTableSchema
  Mysql : Option MysqlTableSchema
  CockroachDB : Option PostgresqlTableSchema
  Cassandra : Option CassandraTableSchema
  SQLite : Option SqliteTableSchema
  RQLite : Option RqliteTableSchema
  TimescaleDB : Option TimescaleDBTableSchema
  deriving DecidableEq, Repr

/-- The struct `TableSpec`, with the fields database.go reads. -/
structure TableSpec where
  Name : String
  Schema : Option TableSchema
  SeedData : Option SeedData
  deriving DecidableEq, Repr

/-- The resource envelope `Table`; only its `Spec` is read. -/
structure Table where
  Spec : TableSpec
  deriving DecidableEq, Repr

/-- The struct `DataTypeSchema`; database.go reads its `Cassandra` field. -/
structure DataTypeSchema where
  Cassandra : Option CassandraDataTypeSchema
  deriving DecidableEq, Repr

/-- The struct `DataTypeSpec`. -/
structure DataTypeSpec where
  Name : String
  Schema : Option DataTypeSchema
  deriving DecidableEq, Repr

/-- The resource envelope `DataType`; only its `Spec` is read. -/
structure DataType where
  Spec : DataTypeSpec
  deriving DecidableEq, Repr

/-- The struct `Database` (database.go, lines 27-37). -/
structure Database where
  InputDir : String
  OutputDir : String
  Driver : String
  URI : String
  Hosts : List String
  Username : String
  Password : String
  Keyspace : String
  DeploySeedData : Bool
  deriving DecidableEq, Repr

/-! ## The driver functions database.go calls -/

/-- A call to a driver function that returns `([]string, error)`, with the
arguments it receives.  One constructor per function named in database.go. -/
inductive PlanCall where
  | postgres_CreateTableStatements (name : String)
      (schema : Option PostgresqlTableSchema)
  | mysql_CreateTableStatements (ctx : Context) (name : String)
      (schema : Option MysqlTableSchema)
  | sqlite_CreateTableStatements (name : String)
      (schema : Option SqliteTableSchema)
  | rqlite_CreateTableStatements (name : String)
      (schema : Option RqliteTableSchema)
  | timescaledb_CreateTableStatements (name : String)
      (schema : Option TimescaleDBTableSchema)
  | postgres_PlanPostgresTable (ctx : Context) (uri : String) (name : String)
      (schema : Option PostgresqlTableSchema) (seedData : Option SeedData)
  | mysql_PlanMysqlTable (ctx : Context) (uri : String) (name : String)
      (schema : Option MysqlTableSchema) (seedData : Option SeedData)
  | cassandra_PlanCassandraTable (ctx : Context) (hosts : List String)
      (username password keyspace : String) (name : String)
      (schema : Option CassandraTableSchema) (seedData : Option SeedData)
  | sqlite_PlanSqliteTable (ctx : Context) (uri : String) (name : String)
      (schema : Option SqliteTableSchema) (seedData : Option SeedData)
  | rqlite_PlanRqliteTable (ctx : Context) (uri : String) (name : String)
      (schema : Option RqliteTableSchema) (seedData : Option SeedData)
  | timescaledb_PlanTimescaleDBTable (ctx : Context) (uri : String)
      (name : String) (schema : Option TimescaleDBTableSchema)
      (seedData : Option SeedData)
  | postgres_SeedDataStatements (name : String)
      (schema : Option PostgresqlTableSchema) (seedData : Option SeedData)
  | mysql_SeedDataStatements (ctx : Context) (name : String)
      (seedData : Option SeedData)
  | sqlite_SeedDataStatements (name : String) (seedData : Option SeedData)
  | rqlite_SeedDataStatements (name : String) (seedData : Option SeedData)
  | timescaledb_SeedDataStatements (name : String)
      (schema : Option TimescaleDBTableSchema) (seedData : Option SeedData)
  | cassandra_PlanCassandraType (hosts : List String)
      (username password keyspace : String) (name : String)
      (schema : Option CassandraDataTypeSchema)
  deriving DecidableEq, Repr

/-- A call to a driver deploy function (they return `error`). -/
inductive DeployCall where
  | postgres_DeployPostgresStatements (uri : String)
      (statements : Option (List String))
  | mysql_DeployMysqlStatements (ctx : Context) (uri : String)
      (statements : Option (List String))
  | cassandra_DeployCassandraStatements (hosts : List String)
      (username password keyspace : String) (statements : Option (List String))
  | sqlite_DeploySqliteStatements (uri : String)
      (statements : Option (List String))
  | rqlite_DeployRqliteStatements (uri : String)
      (statements : Option (List String))
  deriving DecidableEq, Repr

/-- A Go result `([]string, error)`. -/
structure PlanResult where
  statements : Option (List String)
  err : Option GoError
  deriving DecidableEq, Repr

/-- What a run does to the outside, in order. -/
inductive Event where
  | plan (call : PlanCall)
  | deploy (call : DeployCall)
  | readFile (path : String)
  | stat (path : String)
  | mkdirAll (path : String) (perm : Nat)
  | writeFile (path : String) (data : String) (perm : Nat)
  deriving DecidableEq, Repr

/-- A byte string (a Go `[]byte`). -/
abbrev Bytes := List UInt8

/-- The responses of everything outside database.go: the drivers, the file
system and `yaml.Unmarshal` at the four target types. -/
structure World where
  plan : PlanCall → PlanResult
  deploy : DeployCall → Option GoError
  readFile : String → Except GoError Bytes
  statNotExist : String → Bool
  writeFile : String → String → Nat → Option GoError
  unmarshalTable : Bytes → Except GoError Table
  unmarshalTableSpec : Bytes → Except GoError TableSpec
  unmarshalDataType : Bytes → Except GoError DataType
  unmarshalDataTypeSpec : Bytes → Except GoError DataTypeSpec

/-- A finished run: the events it caused and how it ended. -/
structure Run (α : Type) where
  events : List Event
  out : Outcome α
  deriving DecidableEq, Repr

/-- The run `return f(args)` for a driver function `f` with a plan result. -/
def callPlan (w : World) (c : PlanCall) : Run PlanResult :=
  ⟨[Event.plan c], Outcome.returned (w.plan c)⟩

/-- The run `return f(args)` for a driver deploy function `f`. -/
def callDeploy (w : World) (c : DeployCall) : Run (Option GoError) :=
  ⟨[Event.deploy c], Outcome.returned (w.deploy c)⟩

/-- The run that returns `v` without touching the outside. -/
def done {α : Type} (v : α) : Run α :=
  ⟨[], Outcome.returned v⟩

/-! ## PlanSyncTableSpec, PlanSyncSeedData, PlanSyncTypeSpec, ApplySync -/

/-- `Database.PlanSyncTableSpec` (database.go, lines 213-244). -/
def PlanSyncTableSpec (w : World) (d : Database) (ctx : Context)
    (spec : TableSpec) : Run PlanResult :=
  let ctx := ctx.start "PlanSyncTableSpec"
  match spec.Schema with
  | none => done ⟨some [], none⟩
  | some schema =>
    let seedData : Option SeedData :=
      if d.DeploySeedData then spec.SeedData else none
    if d.Driver = "postgres" then
      callPlan w (.postgres_PlanPostgresTable ctx d.URI spec.Name
        schema.Postgres seedData)
    else if d.Driver = "mysql" then
      callPlan w (.mysql_PlanMysqlTable ctx d.URI spec.Name schema.Mysql
        seedData)
    else if d.Driver = "cockroachdb" then
      callPlan w (.postgres_PlanPostgresTable ctx d.URI spec.Name
        schema.CockroachDB seedData)
    else if d.Driver = "cassandra" then
      callPlan w (.cassandra_PlanCassandraTable ctx d.Hosts d.Username
        d.Password d.Keyspace spec.Name schema.Cassandra seedData)
    else if d.Driver = "sqlite" then
      callPlan w (.sqlite_PlanSqliteTable ctx d.URI spec.Name schema.SQLite
        seedData)
    else if d.Driver = "rqlite" then
      callPlan w (.rqlite_PlanRqliteTable ctx d.URI spec.Name schema.RQLite
        seedData)
    else if d.Driver = "timescaledb" then
      callPlan w (.timescaledb_PlanTimescaleDBTable ctx d.URI spec.Name
        schema.TimescaleDB seedData)
    else
      done ⟨none, some (.Errorf "unknown database driver: %q" d.Driver)⟩

/-- `Database.PlanSyncSeedData` (database.go, lines 246-272).  The branches for
postgres, cockroachdb and timescaledb read a field of `spec.Schema` while
building the arguments, which panics when `spec.Schema` is nil. -/
def PlanSyncSeedData (w : World) (d : Database) (ctx : Context)
    (spec : TableSpec) : Run PlanResult :=
  let ctx := ctx.start "PlanSyncSeedData"
  match spec.SeedData with
  | none => done ⟨some [], none⟩
  | some _ =>
    if d.Driver = "postgres" then
      match spec.Schema with
      | none => ⟨[], Outcome.panicked⟩
      | some schema =>
        callPlan w (.postgres_SeedDataStatements spec.Name schema.Postgres
          spec.SeedData)
    else if d.Driver = "mysql" then
      callPlan w (.mysql_SeedDataStatements ctx spec.Name spec.SeedData)
    else if d.Driver = "cockroachdb" then
      match spec.Schema with
      | none => ⟨[], Outcome.panicked⟩
      | some schema =>
        callPlan w (.postgres_SeedDataStatements spec.Name schema.Postgres
          spec.SeedData)
    else if d.Driver = "cassandra" then
      done ⟨none, some (.New "cassandra seed data is not implemented")⟩
    else if d.Driver = "sqlite" then
      callPlan w (.sqlite_SeedDataStatements spec.Name spec.SeedData)
    else if d.Driver = "rqlite" then
      callPlan w (.rqlite_SeedDataStatements spec.Name spec.SeedData)
    else if d.Driver = "timescaledb" then
      match spec.Schema with
      | none => ⟨[], Outcome.panicked⟩
      | some schema =>
        callPlan w (.timescaledb_SeedDataStatements spec.Name
          schema.TimescaleDB spec.SeedData)
    else
      done ⟨none, some (.Errorf "unknown database driver: %q" d.Driver)⟩

/-- `Database.PlanSyncTypeSpec` (database.go, lines 295-305). -/
def PlanSyncTypeSpec (w : World) (d : Database) (spec : DataTypeSpec) :
    Run PlanResult :=
  match spec.Schema with
  | none => done ⟨some [], none⟩
  | some schema =>
    if d.Driver = "cassandra" then
      callPlan w (.cassandra_PlanCassandraType d.Hosts d.Username d.Password
        d.Keyspace spec.Name schema.Cassandra)
    else
      done ⟨none,
        some (.Errorf "planning types is not supported for driver %q" d.Driver)⟩

/-- `Database.ApplySync` (database.go, lines 307-329). -/
def ApplySync (w : World) (d : Database) (ctx : Context)
    (statements : Option (List String)) : Run (Option GoError) :=
  let ctx := ctx.start "ApplySync"
  if d.Driver = "postgres" then
    callDeploy w (.postgres_DeployPostgresStatements d.URI statements)
  else if d.Driver = "mysql" then
    callDeploy w (.mysql_DeployMysqlStatements ctx d.URI statements)
  else if d.Driver = "cockroachdb" then
    callDeploy w (.postgres_DeployPostgresStatements d.URI statements)
  else if d.Driver = "cassandra" then
    callDeploy w (.cassandra_DeployCassandraStatements d.Hosts d.Username
      d.Password d.Keyspace statements)
  else if d.Driver = "sqlite" then
    callDeploy w (.sqlite_DeploySqliteStatements d.URI statements)
  else if d.Driver = "rqlite" then
    callDeploy w (.rqlite_DeployRqliteStatements d.URI statements)
  else if d.Driver = "timescaledb" then
    callDeploy w (.postgres_DeployPostgresStatements d.URI statements)
  else
    done (some (.Errorf "unknown database driver: %q" d.Driver))

/-! ## Loading a spec from bytes: planTableSync, planTypeSync -/

/-- `Database.planTableSync` (database.go, lines 192-211). -/
def planTableSync (w : World) (d : Database) (ctx : Context)
    (specContents : Bytes) : Run PlanResult :=
  let spec : Option TableSpec :=
    match w.unmarshalTable specContents with
    | .ok parsedK8sObject =>
      match parsedK8sObject.Spec.Schema with
      | some _ => some parsedK8sObject.Spec
      | none => none
    | .error _ => none
  match spec with
  | some spec => PlanSyncTableSpec w d ctx spec
  | none =>
    match w.unmarshalTableSpec specContents with
    | .error err => done ⟨none, some (.Wrap err "failed to unmarshal spec")⟩
    | .ok plainSpec => PlanSyncTableSpec w d ctx plainSpec

/-- `Database.planTypeSync` (database.go, lines 274-293). -/
def planTypeSync (w : World) (d : Database) (_ctx : Context)
    (specContents : Bytes) : Run PlanResult :=
  let spec : Option DataTypeSpec :=
    match w.unmarshalDataType specContents with
    | .ok parsedK8sObject =>
      match parsedK8sObject.Spec.Schema with
      | some _ => some parsedK8sObject.Spec
      | none => none
    | .error _ => none
  match spec with
  | some spec => PlanSyncTypeSpec w d spec
  | none =>
    match w.unmarshalDataTypeSpec specContents with
    | .error err => done ⟨none, some (.Wrap err "failed to unmarshal spec")⟩
    | .ok plainSpec => PlanSyncTypeSpec w d plainSpec

/-! ## Library functions used by the fixture generator -/

/-- Go `strings.Join(elems, sep)`. -/
def stringsJoin : List String → String → String
  | [], _ => ""
  | [a], _ => a
  | a :: b :: rest, sep => a ++ sep ++ stringsJoin (b :: rest) sep

/-- The elements of a path between its `/` separators (empty ones included). -/
def splitSlash : List Char → List (List Char)
  | [] => [[]]
  | c :: cs =>
    if c = '/' then [] :: splitSlash cs
    else
      match splitSlash cs with
      | [] => [[c]]
      | x :: xs => (c :: x) :: xs

/-- One step of Go `filepath.Clean` on the stack of elements kept so far (last
element first): an empty element and `.` are dropped, `..` removes the element
before it when that is a real one, is dropped at the root, and is kept
otherwise; any other element is kept. -/
def cleanStep (rooted : Bool) (stack : List (List Char)) (elem : List Char) :
    List (List Char) :=
  if elem = [] then stack
  else if elem = ['.'] then stack
  else if elem = ['.', '.'] then
    match stack with
    | [] => if rooted then [] else [elem]
    | top :: below =>
      if top = ['.', '.'] then (if rooted then stack else elem :: stack)
      else below
  else elem :: stack

/-- The elements joined by `/`. -/
def joinSlash : List (List Char) → List Char
  | [] => []
  | [a] => a
  | a :: b :: rest => a ++ '/' :: joinSlash (b :: rest)

/-- Go `filepath.Clean` with `/` as the separator. -/
def filepathClean (path : String) : String :=
  let rooted : Bool := path.data.head? = some '/'
  let kept := ((splitSlash path.data).foldl (cleanStep rooted) []).reverse
  if rooted then String.mk ('/' :: joinSlash kept)
  else if kept = [] then "."
  else String.mk (joinSlash kept)

/-- Go `filepath.Join`: the elements from the first non-empty one on, joined by
`/` and cleaned; the empty string when every element is empty. -/
def filepathJoin : List String → String
  | [] => ""
  | e :: rest =>
    if e = "" then filepathJoin rest
    else filepathClean (stringsJoin (e :: rest) "/")

/-- An `os.FileInfo`, with the two methods database.go calls. -/
structure FileInfo where
  Name : String
  IsDir : Bool
  deriving DecidableEq, Repr

/-- A file tree on disk: a regular file, or a directory with its entries by
name, in the lexical order in which `filepath.Walk` reads them. -/
inductive FsNode where
  | file
  | dir (entries : List (String × FsNode))

/-- Whether the node is a directory (`info.IsDir()` of its `os.FileInfo`). -/
def FsNode.isDir : FsNode → Bool
  | .file => false
  | .dir _ => true

mutual
/-- The unexported `walk(path, info, walkFn)` of Go `path/filepath`, on a tree
that is read without error; `s` is the state of the variables `walkFn` has
captured.  A file is handed to `walkFn`; a directory is handed to `walkFn`
and, when that returns nil, its entries are walked. -/
def walkNode {σ : Type}
    (walkFn : σ → String → FileInfo → Option GoError → σ × Option GoError)
    (path : String) (name : String) : FsNode → σ → σ × Option GoError
  | .file, s => walkFn s path ⟨name, false⟩ none
  | .dir entries, s =>
    match (walkFn s path ⟨name, true⟩ none).2 with
    | some err1 => ((walkFn s path ⟨name, true⟩ none).1, some err1)
    | none =>
      walkEntries walkFn path entries (walkFn s path ⟨name, true⟩ none).1
/-- The loop of `walk` over the entries of the directory at `path`: each entry
is walked under `filepath.Join(path, name)`; an error ends the loop and is
returned, unless it is `SkipDir` from a directory, which is dropped. -/
def walkEntries {σ : Type}
    (walkFn : σ → String → FileInfo → Option GoError → σ × Option GoError)
    (path : String) : List (String × FsNode) → σ → σ × Option GoError
  | [], s => (s, none)
  | (name, node) :: rest, s =>
    match (walkNode walkFn (filepathJoin [path, name]) name node s).2 with
    | none =>
      walkEntries walkFn path rest
        (walkNode walkFn (filepathJoin [path, name]) name node s).1
    | some err =>
      if node.isDir = false ∨ err ≠ GoError.SkipDir then
        ((walkNode walkFn (filepathJoin [path, name]) name node s).1, some err)
      else
        walkEntries walkFn path rest
          (walkNode walkFn (filepathJoin [path, name]) name node s).1
end

/-- The tree found at a root path: the name `os.Lstat(root)` reports for it and
the node there. -/
structure FileTree where
  rootName : String
  root : FsNode

/-- Go `filepath.Walk(root, walkFn)`: the walk of the tree at `root`, whose
error is returned unless it is `SkipDir` or `SkipAll`, for which `Walk` returns
nil. -/
def filepathWalk {σ : Type}
    (walkFn : σ → String → FileInfo → Option GoError → σ × Option GoError)
    (root : String) (tree : FileTree) (s : σ) : σ × Option GoError :=
  match (walkNode walkFn root tree.rootName tree.root s).2 with
  | some err =>
    if err = GoError.SkipDir ∨ err = GoError.SkipAll then
      ((walkNode walkFn root tree.rootName tree.root s).1, none)
    else ((walkNode walkFn root tree.rootName tree.root s).1, some err)
  | none => ((walkNode walkFn root tree.rootName tree.root s).1, none)

/-- One call of the walk function: the arguments `path`, `info`, `err`. -/
structure Visit where
  path : String
  info : FileInfo
  err : Option GoError
  deriving DecidableEq, Repr

/-- A walk function that records its arguments and returns nil. -/
def recordVisit (s : List Visit) (path : String) (info : FileInfo)
    (err : Option GoError) : List Visit × Option GoError :=
  (s ++ [⟨path, info, err⟩], none)

/-- The calls `filepath.Walk(root, walkFn)` makes, in order, to a walk function
that returns nil. -/
def walkVisits (root : String) (tree : FileTree) : List Visit :=
  (filepathWalk recordVisit root tree []).1

/-! ## CreateFixturesSync -/

/-- The state after one call of `handleFile`: the events it caused, the
captured variable `statements`, and the error it returned. -/
structure FileRun where
  events : List Event
  statements : List String
  err : Option GoError
  deriving DecidableEq, Repr

/-- The path `handleFile` reads (database.go, line 57). -/
def readPath (d : Database) (info : FileInfo) : String :=
  filepathJoin [d.InputDir, info.Name]

/-- The three statements every dialect branch of `handleFile` ends with: call
the driver, return its error if any, else append its statements. -/
def createWith (w : World) (events : List Event) (statements : List String)
    (c : PlanCall) : FileRun :=
  match (w.plan c).err with
  | some err => ⟨events ++ [Event.plan c], statements, some err⟩
  | none =>
    ⟨events ++ [Event.plan c],
      statements ++ ((w.plan c).statements.getD []), none⟩

/-- The table spec `handleFile` takes from the bytes of a file (database.go,
lines 62-78): the spec of the envelope when the envelope decodes and carries a
schema, else the bare decoding, whose error is returned as it is. -/
def decodeTableSpec (w : World) (fileData : Bytes) : Except GoError TableSpec :=
  let spec : Option TableSpec :=
    match w.unmarshalTable fileData with
    | .ok parsedK8sObject =>
      match parsedK8sObject.Spec.Schema with
      | some _ => some parsedK8sObject.Spec
      | none => none
    | .error _ => none
  match spec with
  | some spec => .ok spec
  | none =>
    match w.unmarshalTableSpec fileData with
    | .error err => .error err
    | .ok plainSpec => .ok plainSpec

/-- The part of `handleFile` after the spec is decoded (database.go, lines
80-154); `evs` are the events of the call so far. -/
def handleSpec (w : World) (d : Database) (ctx : Context) (evs : List Event)
    (statements : List String) (spec : TableSpec) : FileRun :=
  match spec.Schema with
  | none => ⟨evs, statements, none⟩
  | some schema =>
    if d.Driver = "postgres" then
      match schema.Postgres with
      | none => ⟨evs, statements, none⟩
      | some _ =>
        createWith w evs statements
          (.postgres_CreateTableStatements spec.Name schema.Postgres)
    else if d.Driver = "mysql" then
      match schema.Mysql with
      | none => ⟨evs, statements, none⟩
      | some _ =>
        createWith w evs statements
          (.mysql_CreateTableStatements ctx spec.Name schema.Mysql)
    else if d.Driver = "cockroachdb" then
      match schema.CockroachDB with
      | none => ⟨evs, statements, none⟩
      | some _ =>
        createWith w evs statements
          (.postgres_CreateTableStatements spec.Name schema.CockroachDB)
    else if d.Driver = "sqlite" then
      match schema.SQLite with
      | none => ⟨evs, statements, none⟩
      | some _ =>
        createWith w evs statements
          (.sqlite_CreateTableStatements spec.Name schema.SQLite)
    else if d.Driver = "rqlite" then
      match schema.RQLite with
      | none => ⟨evs, statements, none⟩
      | some _ =>
        createWith w evs statements
          (.rqlite_CreateTableStatements spec.Name schema.RQLite)
    else if d.Driver = "timescaledb" then
      match schema.TimescaleDB with
      | none => ⟨evs, statements, none⟩
      | some _ =>
        createWith w evs statements
          (.timescaledb_CreateTableStatements spec.Name schema.TimescaleDB)
    else if d.Driver = "cassandra" then
      ⟨evs, statements, some (.New "not implemented")⟩
    else ⟨evs, statements, none⟩

/-- The closure `handleFile` of `Database.CreateFixturesSync` (database.go,
lines 48-155); `ctx` is the context after the span was started, `statements`
the captured variable before the call. -/
def handleFile (w : World) (d : Database) (ctx : Context)
    (statements : List String) (_path : String) (info : FileInfo)
    (err : Option GoError) : FileRun :=
  match err with
  | some e => ⟨[], statements, some e⟩
  | none =>
    if info.IsDir then ⟨[], statements, none⟩
    else
      match w.readFile (readPath d info) with
      | .error e => ⟨[Event.readFile (readPath d info)], statements, some e⟩
      | .ok fileData =>
        match decodeTableSpec w fileData with
        | .error e => ⟨[Event.readFile (readPath d info)], statements, some e⟩
        | .ok spec =>
          handleSpec w d ctx [Event.readFile (readPath d info)] statements spec

/-- What `CreateFixturesSync` has done and collected so far during the walk:
the events, and the captured variable `statements`. -/
structure FixtureState where
  events : List Event
  statements : List String
  deriving DecidableEq, Repr

/-- The closure `handleFile` as the walk function handed to `filepath.Walk`:
it runs on the captured `statements` and leaves them updated. -/
def handleFileFn (w : World) (d : Database) (ctx : Context) (s : FixtureState)
    (path : String) (info : FileInfo) (err : Option GoError) :
    FixtureState × Option GoError :=
  (⟨s.events ++ (handleFile w d ctx s.statements path info err).events,
      (handleFile w d ctx s.statements path info err).statements⟩,
    (handleFile w d ctx s.statements path info err).err)

/-- The banner of fixtures.sql (database.go, line 163). -/
def fixturesBanner : String :=
  "/* Auto generated file. Do not edit by hand. This file was generated by SchemaHero. */"

/-- The text of fixtures.sql for the collected statements (database.go, lines
162-163): `strings.Join`, then the `Sprintf` around its result. -/
def fixturesText (statements : List String) : String :=
  let output := stringsJoin statements ";\n"
  fixturesBanner ++ "\n\n " ++ output ++ ";\n\n"

/-- `Database.CreateFixturesSync` (database.go, lines 39-175), on the file tree
found at `d.InputDir`. -/
def CreateFixturesSync (w : World) (tree : FileTree) (d : Database)
    (ctx : Context) : Run (Option GoError) :=
  let ctx := ctx.start "CreateFixturesSync"
  let r := filepathWalk (handleFileFn w d ctx) d.InputDir tree ⟨[], []⟩
  match r.2 with
  | some e => ⟨r.1.events, Outcome.returned (some e)⟩
  | none =>
    let output := fixturesText r.1.statements
    let target := filepathJoin [d.OutputDir, "fixtures.sql"]
    let mk : List Event :=
      if w.statNotExist d.OutputDir then [Event.mkdirAll d.OutputDir 0o750]
      else []
    ⟨r.1.events ++ [Event.stat d.OutputDir] ++ mk
        ++ [Event.writeFile target output 0o600],
      Outcome.returned (w.writeFile target output 0o600)⟩

/-- `Database.PlanSyncFromFile` (database.go, lines 177-190). -/
def PlanSyncFromFile (w : World) (d : Database) (ctx : Context)
    (filename : String) (specType : String) : Run PlanResult :=
  let evs := [Event.readFile (filepathClean filename)]
  match w.readFile (filepathClean filename) with
  | .error err => ⟨evs, Outcome.returned ⟨none, some (.Wrap err "failed to read file")⟩⟩
  | .ok specContents =>
    if specType = "table" then
      let r := planTableSync w d ctx specContents
      ⟨evs ++ r.events, r.out⟩
    else if specType = "type" then
      let r := planTypeSync w d ctx specContents
      ⟨evs ++ r.events, r.out⟩
    else ⟨evs, Outcome.returned ⟨none, some (.New "unknown spec type")⟩⟩

/-! ## Vocabulary of the statements -/

/-- The seven driver identifiers database.go dispatches on. -/
def supportedDrivers : List String :=
  ["postgres", "mysql", "cockroachdb", "cassandra", "sqlite", "rqlite",
    "timescaledb"]

/-- Whether a schema carries the block of a driver: the field
`PlanSyncTableSpec` hands to that driver is non-nil. -/
def hasBlock (driver : String) (schema : TableSchema) : Bool :=
  if driver = "postgres" then schema.Postgres.isSome
  else if driver = "mysql" then schema.Mysql.isSome
  else if driver = "cockroachdb" then schema.CockroachDB.isSome
  else if driver = "cassandra" then schema.Cassandra.isSome
  else if driver = "sqlite" then schema.SQLite.isSome
  else if driver = "rqlite" then schema.RQLite.isSome
  else if driver = "timescaledb" then schema.TimescaleDB.isSome
  else false

/-- An error built by `errors.Wrap(_, "failed to unmarshal spec")`. -/
def isUnmarshalSpecError : GoError → Bool
  | .Wrap _ msg => msg = "failed to unmarshal spec"
  | _ => false

/-- The error of a plan outcome, if it returned one. -/
def planError : Outcome PlanResult → Option GoError
  | .panicked => none
  | .returned r => r.err

/-- Each statement followed by its terminator `;` and a line break. -/
def concatTerminated : List String → String
  | [] => ""
  | s :: rest => s ++ ";\n" ++ concatTerminated rest

/-- A script with one terminator per statement and no other: the banner, the
blank line and the leading space, the terminated statements, and the closing
line break. -/
def terminatedText (statements : List String) : String :=
  fixturesBanner ++ "\n\n " ++ concatTerminated statements ++ "\n"

/-- The statements a plan event of a run contributes: those the driver
returned, when it returned them without error. -/
def eventStatements (w : World) : Event → List String
  | .plan c =>
    match (w.plan c).err with
    | none => (w.plan c).statements.getD []
    | some _ => []
  | _ => []

/-! ## Concrete inputs -/

/-- A world where every driver call succeeds with no statement, no file can be
read and no bytes decode. -/
def idleWorld : World where
  plan := fun _ => ⟨some [], none⟩
  deploy := fun _ => none
  readFile := fun _ => .error (.Foreign "no such file or directory")
  statNotExist := fun _ => false
  writeFile := fun _ _ _ => none
  unmarshalTable := fun _ => .error (.Foreign "yaml: unmarshal errors")
  unmarshalTableSpec := fun _ => .error (.Foreign "yaml: unmarshal errors")
  unmarshalDataType := fun _ => .error (.Foreign "yaml: unmarshal errors")
  unmarshalDataTypeSpec := fun _ => .error (.Foreign "yaml: unmarshal errors")

/-- A database configuration for a driver identifier. -/
def sampleDatabase (driver : String) : Database where
  InputDir := "specs"
  OutputDir := "out"
  Driver := driver
  URI := "postgres://db"
  Hosts := ["node1"]
  Username := "user"
  Password := "secret"
  Keyspace := "ks"
  DeploySeedData := false

/-- A schema with the mysql block only (scenario C of the spec). -/
def mysqlOnlySchema : TableSchema where
  Postgres := none
  Mysql := some ⟨"id int"⟩
  CockroachDB := none
  Cassandra := none
  SQLite := none
  RQLite := none
  TimescaleDB := none

/-- A schema with no block at all. -/
def emptySchema : TableSchema where
  Postgres := none
  Mysql := none
  CockroachDB := none
  Cassandra := none
  SQLite := none
  RQLite := none
  TimescaleDB := none

/-- A schema with a cockroachdb block and the given postgres block. -/
def cockroachSchema (pg : String) : TableSchema where
  Postgres := some ⟨pg⟩
  Mysql := none
  CockroachDB := some ⟨"id int primary key"⟩
  Cassandra := none
  SQLite := none
  RQLite := none
  TimescaleDB := none

/-- The background context. -/
def background : Context := ⟨[]⟩

/-- Two schemas carry the same block for a driver. -/
def sameBlock (driver : String) (a b : TableSchema) : Prop :=
  if driver = "postgres" then a.Postgres = b.Postgres
  else if driver = "mysql" then a.Mysql = b.Mysql
  else if driver = "cockroachdb" then a.CockroachDB = b.CockroachDB
  else if driver = "cassandra" then a.Cassandra = b.Cassandra
  else if driver = "sqlite" then a.SQLite = b.SQLite
  else if driver = "rqlite" then a.RQLite = b.RQLite
  else if driver = "timescaledb" then a.TimescaleDB = b.TimescaleDB
  else True

instance (driver : String) (a b : TableSchema) :
    Decidable (sameBlock driver a b) := by
  unfold sameBlock
  infer_instance

/-- A world whose postgres seed planner answers with the schema it was handed;
everything else is as in `idleWorld`. -/
def echoWorld : World where
  plan := fun c =>
    match c with
    | .postgres_SeedDataStatements _ (some schema) _ =>
      ⟨some [schema.payload], none⟩
    | _ => ⟨some [], none⟩
  deploy := fun _ => none
  readFile := fun _ => .error (.Foreign "no such file or directory")
  statNotExist := fun _ => false
  writeFile := fun _ _ _ => none
  unmarshalTable := fun _ => .error (.Foreign "yaml: unmarshal errors")
  unmarshalTableSpec := fun _ => .error (.Foreign "yaml: unmarshal errors")
  unmarshalDataType := fun _ => .error (.Foreign "yaml: unmarshal errors")
  unmarshalDataTypeSpec := fun _ => .error (.Foreign "yaml: unmarshal errors")

/-- The statements the drivers returned without error over a list of events,
in the order of the calls. -/
def collected (w : World) : List Event → List String
  | [] => []
  | e :: es => eventStatements w e ++ collected w es

/-- A world where every file reads, the envelope never decodes and the bare
form decodes to the given spec; the drivers are as in `idleWorld`. -/
def bareWorld (spec : TableSpec) : World where
  plan := fun _ => ⟨some [], none⟩
  deploy := fun _ => none
  readFile := fun _ => .ok []
  statNotExist := fun _ => false
  writeFile := fun _ _ _ => none
  unmarshalTable := fun _ => .error (.Foreign "yaml: not a Table")
  unmarshalTableSpec := fun _ => .ok spec
  unmarshalDataType := fun _ => .error (.Foreign "yaml: not a DataType")
  unmarshalDataTypeSpec := fun _ => .error (.Foreign "yaml: not a DataTypeSpec")

/-- A world where every file reads and nothing decodes, with a different error
for each target type. -/
def garbledWorld : World where
  plan := fun _ => ⟨some [], none⟩
  deploy := fun _ => none
  readFile := fun _ => .ok []
  statNotExist := fun _ => false
  writeFile := fun _ _ _ => none
  unmarshalTable := fun _ => .error (.Foreign "yaml: not a Table")
  unmarshalTableSpec := fun _ => .error (.Foreign "yaml: not a TableSpec")
  unmarshalDataType := fun _ => .error (.Foreign "yaml: not a DataType")
  unmarshalDataTypeSpec := fun _ => .error (.Foreign "yaml: not a DataTypeSpec")

/-- The input directory `specs` holding one file, `sub/users.yaml`. -/
def nestedTree : FileTree where
  rootName := "specs"
  root := .dir [("sub", .dir [("users.yaml", .file)])]

/-- A world whose only readable file is `specs/sub/users.yaml`, as on a disk
that holds `nestedTree` at `specs`; its bytes decode to a bare spec without
schema. -/
def nestedWorld : World where
  plan := fun _ => ⟨some [], none⟩
  deploy := fun _ => none
  readFile := fun path =>
    if path = "specs/sub/users.yaml" then .ok []
    else .error (.Foreign "no such file or directory")
  statNotExist := fun _ => false
  writeFile := fun _ _ _ => none
  unmarshalTable := fun _ => .error (.Foreign "yaml: not a Table")
  unmarshalTableSpec := fun _ => .ok ⟨"users", none, none⟩
  unmarshalDataType := fun _ => .error (.Foreign "yaml: not a DataType")
  unmarshalDataTypeSpec := fun _ => .error (.Foreign "yaml: not a DataTypeSpec")

/-- A world where the envelope decodes to a table whose spec has the mysql
block only, and the bare form does not decode. -/
def envelopeWorld : World where
  plan := fun _ => ⟨some [], none⟩
  deploy := fun _ => none
  readFile := fun _ => .ok []
  statNotExist := fun _ => false
  writeFile := fun _ _ _ => none
  unmarshalTable := fun _ => .ok ⟨⟨"users", some mysqlOnlySchema, none⟩⟩
  unmarshalTableSpec := fun _ => .error (.Foreign "yaml: not a TableSpec")
  unmarshalDataType := fun _ => .error (.Foreign "yaml: not a DataType")
  unmarshalDataTypeSpec := fun _ => .error (.Foreign "yaml: not a DataTypeSpec")

/-- A world where every file decodes to the bare spec of a table `users` with
a postgres block, for which the postgres driver returns two statements. -/
def fixtureWorld : World where
  plan := fun c =>
    match c with
    | .postgres_CreateTableStatements name _ =>
      ⟨some ["CREATE TABLE " ++ name, "CREATE INDEX ON " ++ name], none⟩
    | _ => ⟨some [], none⟩
  deploy := fun _ => none
  readFile := fun _ => .ok []
  statNotExist := fun _ => true
  writeFile := fun _ _ _ => none
  unmarshalTable := fun _ => .error (.Foreign "yaml: not a Table")
  unmarshalTableSpec := fun _ => .ok ⟨"users", some (cockroachSchema "id int"), none⟩
  unmarshalDataType := fun _ => .error (.Foreign "yaml: not a DataType")
  unmarshalDataTypeSpec := fun _ => .error (.Foreign "yaml: not a DataTypeSpec")

/-- The input directory `specs` holding the one file `users.yaml`. -/
def flatTree : FileTree where
  rootName := "specs"
  root := .dir [("users.yaml", .file)]

/-- The input directory `specs`, empty. -/
def emptyTree : FileTree where
  rootName := "specs"
  root := .dir []

/-- A world where every file decodes to the bare spec of a table `users` with
a postgres block, and the postgres driver returns a statement together with
the error `filepath.SkipDir`. -/
def skipWorld : World where
  plan := fun _ => ⟨some ["CREATE TABLE users"], some .SkipDir⟩
  deploy := fun _ => none
  readFile := fun _ => .ok []
  statNotExist := fun _ => false
  writeFile := fun _ _ _ => none
  unmarshalTable := fun _ => .error (.Foreign "yaml: not a Table")
  unmarshalTableSpec := fun _ => .ok ⟨"users", some (cockroachSchema "id int"), none⟩
  unmarshalDataType := fun _ => .error (.Foreign "yaml: not a DataType")
  unmarshalDataTypeSpec := fun _ => .error (.Foreign "yaml: not a DataTypeSpec")

/-! ## Theorems -/

/-- C1, the claim as written fails: with the unrecognized driver `oracle`, a
table spec without a schema is planned to the empty plan with a nil error, and
so is the seed data of a table spec without seed data. -/
theorem unknown_driver_empty_success :
    "oracle" ∉ supportedDrivers ∧
    PlanSyncTableSpec idleWorld (sampleDatabase "oracle") background
        ⟨"users", none, none⟩ = ⟨[], .returned ⟨some [], none⟩⟩ ∧
    PlanSyncSeedData idleWorld (sampleDatabase "oracle") background
        ⟨"users", none, none⟩ = ⟨[], .returned ⟨some [], none⟩⟩ := by
  decide

/-- C1, amended: for a driver outside the seven identifiers no driver function
is invoked; `ApplySync` returns the unknown-driver error; `PlanSyncTableSpec`
returns it when the spec has a schema and the empty plan with a nil error when
it has none; `PlanSyncSeedData` returns it when the spec has seed data and the
empty plan with a nil error when it has none. -/
theorem unknown_driver_results (w : World) (d : Database) (ctx : Context)
    (spec : TableSpec) (statements : Option (List String))
    (h : d.Driver ∉ supportedDrivers) :
    ApplySync w d ctx statements
      = ⟨[], .returned (some (.Errorf "unknown database driver: %q" d.Driver))⟩ ∧
    PlanSyncTableSpec w d ctx spec
      = (match spec.Schema with
        | none => ⟨[], .returned ⟨some [], none⟩⟩
        | some _ => ⟨[], .returned
            ⟨none, some (.Errorf "unknown database driver: %q" d.Driver)⟩⟩) ∧
    PlanSyncSeedData w d ctx spec
      = (match spec.SeedData with
        | none => ⟨[], .returned ⟨some [], none⟩⟩
        | some _ => ⟨[], .returned
            ⟨none, some (.Errorf "unknown database driver: %q" d.Driver)⟩⟩) := by
  simp only [supportedDrivers, List.mem_cons, List.mem_singleton, not_or,
    List.mem_nil_iff, or_false] at h
  obtain ⟨h1, h2, h3, h4, h5, h6, h7⟩ := h
  refine ⟨?_, ?_, ?_⟩
  · simp [ApplySync, done, h1, h2, h3, h4, h5, h6, h7]
  · cases hs : spec.Schema <;>
      simp [PlanSyncTableSpec, done, hs, h1, h2, h3, h4, h5, h6, h7]
  · cases hs : spec.SeedData <;>
      simp [PlanSyncSeedData, done, hs, h1, h2, h3, h4, h5, h6, h7]

/-- Witness of `unknown_driver_results` at the driver `oracle`. -/
theorem unknown_driver_results_witness :
    "oracle" ∉ supportedDrivers ∧
    ApplySync idleWorld (sampleDatabase "oracle") background (some ["CREATE"])
      = ⟨[], .returned (some (.Errorf "unknown database driver: %q" "oracle"))⟩ :=
  ⟨by decide,
    (unknown_driver_results idleWorld (sampleDatabase "oracle") background
      ⟨"users", some emptySchema, none⟩ (some ["CREATE"]) (by decide)).1⟩

/-- C2, the claim as written fails: with driver `postgres` and a spec whose
schema has the mysql block only, `PlanSyncTableSpec` invokes the postgres
planning function, with a nil schema, and returns what it returns, here a plan
and no error. -/
theorem missing_block_reaches_driver :
    hasBlock "postgres" mysqlOnlySchema = false ∧
    PlanSyncTableSpec idleWorld (sampleDatabase "postgres") background
        ⟨"users", some mysqlOnlySchema, none⟩
      = ⟨[Event.plan (.postgres_PlanPostgresTable ⟨["PlanSyncTableSpec"]⟩
            "postgres://db" "users" none none)],
          .returned ⟨some [], none⟩⟩ := by
  decide

/-- C2, amended: for a supported driver and a spec whose schema is non-nil but
has no block for that driver, `PlanSyncTableSpec` makes no check of its own: it
invokes that driver's planning function once, with a nil schema, and returns
its result unchanged. -/
theorem missing_block_is_delegated (w : World) (d : Database) (ctx : Context)
    (spec : TableSpec) (schema : TableSchema) (hs : spec.Schema = some schema)
    (hb : hasBlock d.Driver schema = false) :
    let ctx1 : Context := ⟨ctx.spans ++ ["PlanSyncTableSpec"]⟩
    let seed := if d.DeploySeedData then spec.SeedData else none
    (d.Driver = "postgres" → PlanSyncTableSpec w d ctx spec
      = ⟨[Event.plan (.postgres_PlanPostgresTable ctx1 d.URI spec.Name none seed)],
          .returned (w.plan (.postgres_PlanPostgresTable ctx1 d.URI spec.Name none seed))⟩) ∧
    (d.Driver = "mysql" → PlanSyncTableSpec w d ctx spec
      = ⟨[Event.plan (.mysql_PlanMysqlTable ctx1 d.URI spec.Name none seed)],
          .returned (w.plan (.mysql_PlanMysqlTable ctx1 d.URI spec.Name none seed))⟩) ∧
    (d.Driver = "cockroachdb" → PlanSyncTableSpec w d ctx spec
      = ⟨[Event.plan (.postgres_PlanPostgresTable ctx1 d.URI spec.Name none seed)],
          .returned (w.plan (.postgres_PlanPostgresTable ctx1 d.URI spec.Name none seed))⟩) ∧
    (d.Driver = "cassandra" → PlanSyncTableSpec w d ctx spec
      = ⟨[Event.plan (.cassandra_PlanCassandraTable ctx1 d.Hosts d.Username d.Password
            d.Keyspace spec.Name none seed)],
          .returned (w.plan (.cassandra_PlanCassandraTable ctx1 d.Hosts d.Username d.Password
            d.Keyspace spec.Name none seed))⟩) ∧
    (d.Driver = "sqlite" → PlanSyncTableSpec w d ctx spec
      = ⟨[Event.plan (.sqlite_PlanSqliteTable ctx1 d.URI spec.Name none seed)],
          .returned (w.plan (.sqlite_PlanSqliteTable ctx1 d.URI spec.Name none seed))⟩) ∧
    (d.Driver = "rqlite" → PlanSyncTableSpec w d ctx spec
      = ⟨[Event.plan (.rqlite_PlanRqliteTable ctx1 d.URI spec.Name none seed)],
          .returned (w.plan (.rqlite_PlanRqliteTable ctx1 d.URI spec.Name none seed))⟩) ∧
    (d.Driver = "timescaledb" → PlanSyncTableSpec w d ctx spec
      = ⟨[Event.plan (.timescaledb_PlanTimescaleDBTable ctx1 d.URI spec.Name none seed)],
          .returned (w.plan (.timescaledb_PlanTimescaleDBTable ctx1 d.URI spec.Name none seed))⟩) := by
  intro ctx1 seed
  refine ⟨?_, ?_, ?_, ?_, ?_, ?_, ?_⟩ <;> intro hd <;>
    simp [hasBlock, hd] at hb <;>
    simp [PlanSyncTableSpec, callPlan, Context.start, hs, hd, hb, ctx1, seed]

/-- Witness of `missing_block_is_delegated`: scenario C of the spec. -/
theorem missing_block_is_delegated_witness :
    PlanSyncTableSpec echoWorld (sampleDatabase "postgres") background
        ⟨"users", some mysqlOnlySchema, some ⟨"rows"⟩⟩
      = ⟨[Event.plan (.postgres_PlanPostgresTable ⟨["PlanSyncTableSpec"]⟩
            "postgres://db" "users" none none)],
          .returned (echoWorld.plan (.postgres_PlanPostgresTable
            ⟨["PlanSyncTableSpec"]⟩ "postgres://db" "users" none none))⟩ :=
  (missing_block_is_delegated echoWorld (sampleDatabase "postgres") background
    ⟨"users", some mysqlOnlySchema, some ⟨"rows"⟩⟩ mysqlOnlySchema rfl
    (by decide)).1 rfl

/-- C3, the code at the failing input: with driver `cockroachdb`, two specs
that agree on name, seed data and cockroachdb block and differ in the postgres
block make `PlanSyncSeedData` hand the driver different schemas, each the
postgres block, and so return different plans. -/
theorem cockroachdb_seed_reads_postgres_block :
    sameBlock "cockroachdb" (cockroachSchema "a text") (cockroachSchema "b text") ∧
    PlanSyncSeedData echoWorld (sampleDatabase "cockroachdb") background
        ⟨"users", some (cockroachSchema "a text"), some ⟨"rows"⟩⟩
      = ⟨[Event.plan (.postgres_SeedDataStatements "users"
            (cockroachSchema "a text").Postgres (some ⟨"rows"⟩))],
          .returned ⟨some ["a text"], none⟩⟩ ∧
    PlanSyncSeedData echoWorld (sampleDatabase "cockroachdb") background
        ⟨"users", some (cockroachSchema "b text"), some ⟨"rows"⟩⟩
      = ⟨[Event.plan (.postgres_SeedDataStatements "users"
            (cockroachSchema "b text").Postgres (some ⟨"rows"⟩))],
          .returned ⟨some ["b text"], none⟩⟩ ∧
    (cockroachSchema "a text").Postgres ≠ (cockroachSchema "a text").CockroachDB := by
  decide

/-- Dialect isolation of `PlanSyncTableSpec` (the part of C3 that holds): two
specs with schemas that agree on name, seed data and the block of the
configured driver are planned by the same run. -/
theorem plan_table_dialect_isolation (w : World) (d : Database) (ctx : Context)
    (s1 s2 : TableSpec) (a b : TableSchema) (h1 : s1.Schema = some a)
    (h2 : s2.Schema = some b) (hn : s1.Name = s2.Name)
    (hseed : s1.SeedData = s2.SeedData) (hblock : sameBlock d.Driver a b) :
    PlanSyncTableSpec w d ctx s1 = PlanSyncTableSpec w d ctx s2 := by
  unfold sameBlock at hblock
  unfold PlanSyncTableSpec
  simp only [h1, h2, hn, hseed]
  split_ifs at hblock ⊢ <;> simp [hblock]

/-- C5, the claim as written fails: with driver `postgres`, a type spec without
a schema is planned to the empty plan with a nil error. -/
theorem type_plan_nil_schema_succeeds :
    (sampleDatabase "postgres").Driver ≠ "cassandra" ∧
    PlanSyncTypeSpec idleWorld (sampleDatabase "postgres") ⟨"address", none⟩
      = ⟨[], .returned ⟨some [], none⟩⟩ := by
  decide

/-- C5, amended: for a driver other than `cassandra`, `PlanSyncTypeSpec`
invokes no driver function; it returns the error "planning types is not
supported for driver" when the type spec has a schema, and the empty plan with
a nil error when it has none. -/
theorem type_plan_unsupported (w : World) (d : Database) (spec : DataTypeSpec)
    (h : d.Driver ≠ "cassandra") :
    PlanSyncTypeSpec w d spec
      = (match spec.Schema with
        | none => ⟨[], .returned ⟨some [], none⟩⟩
        | some _ => ⟨[], .returned ⟨none, some
            (.Errorf "planning types is not supported for driver %q" d.Driver)⟩⟩) := by
  cases hs : spec.Schema <;> simp [PlanSyncTypeSpec, done, hs, h]

/-- Witness of `type_plan_unsupported`: driver `mysql`, a type with a schema. -/
theorem type_plan_unsupported_witness :
    PlanSyncTypeSpec idleWorld (sampleDatabase "mysql")
        ⟨"address", some ⟨some ⟨"street text"⟩⟩⟩
      = ⟨[], .returned ⟨none, some
          (.Errorf "planning types is not supported for driver %q" "mysql")⟩⟩ :=
  type_plan_unsupported idleWorld (sampleDatabase "mysql")
    ⟨"address", some ⟨some ⟨"street text"⟩⟩⟩ (by decide)

/-- C8: for each of the seven drivers `ApplySync` makes one deploy call, with
the statements as given and the connection fields of the database, and returns
its result; postgres, cockroachdb and timescaledb share the postgres deploy
function. -/
theorem apply_dispatch (w : World) (d : Database) (ctx : Context)
    (statements : Option (List String)) (h : d.Driver ∈ supportedDrivers) :
    (d.Driver = "postgres" ∨ d.Driver = "cockroachdb" ∨ d.Driver = "timescaledb" →
      ApplySync w d ctx statements
        = ⟨[Event.deploy (.postgres_DeployPostgresStatements d.URI statements)],
            .returned
              (w.deploy (.postgres_DeployPostgresStatements d.URI statements))⟩) ∧
    (d.Driver = "mysql" → ApplySync w d ctx statements
        = ⟨[Event.deploy (.mysql_DeployMysqlStatements
              ⟨ctx.spans ++ ["ApplySync"]⟩ d.URI statements)],
            .returned (w.deploy (.mysql_DeployMysqlStatements
              ⟨ctx.spans ++ ["ApplySync"]⟩ d.URI statements))⟩) ∧
    (d.Driver = "cassandra" → ApplySync w d ctx statements
        = ⟨[Event.deploy (.cassandra_DeployCassandraStatements d.Hosts
              d.Username d.Password d.Keyspace statements)],
            .returned (w.deploy (.cassandra_DeployCassandraStatements d.Hosts
              d.Username d.Password d.Keyspace statements))⟩) ∧
    (d.Driver = "sqlite" → ApplySync w d ctx statements
        = ⟨[Event.deploy (.sqlite_DeploySqliteStatements d.URI statements)],
            .returned
              (w.deploy (.sqlite_DeploySqliteStatements d.URI statements))⟩) ∧
    (d.Driver = "rqlite" → ApplySync w d ctx statements
        = ⟨[Event.deploy (.rqlite_DeployRqliteStatements d.URI statements)],
            .returned
              (w.deploy (.rqlite_DeployRqliteStatements d.URI statements))⟩) ∧
    ∃ c, ApplySync w d ctx statements
        = ⟨[Event.deploy c], .returned (w.deploy c)⟩ := by
  have pg : d.Driver = "postgres" ∨ d.Driver = "cockroachdb" ∨
      d.Driver = "timescaledb" →
      ApplySync w d ctx statements
        = ⟨[Event.deploy (.postgres_DeployPostgresStatements d.URI statements)],
            .returned
              (w.deploy (.postgres_DeployPostgresStatements d.URI statements))⟩ := by
    rintro (hd | hd | hd) <;> simp [ApplySync, callDeploy, hd]
  have my : d.Driver = "mysql" → ApplySync w d ctx statements
        = ⟨[Event.deploy (.mysql_DeployMysqlStatements
              ⟨ctx.spans ++ ["ApplySync"]⟩ d.URI statements)],
            .returned (w.deploy (.mysql_DeployMysqlStatements
              ⟨ctx.spans ++ ["ApplySync"]⟩ d.URI statements))⟩ := by
    intro hd; simp [ApplySync, callDeploy, Context.start, hd]
  have ca : d.Driver = "cassandra" → ApplySync w d ctx statements
        = ⟨[Event.deploy (.cassandra_DeployCassandraStatements d.Hosts
              d.Username d.Password d.Keyspace statements)],
            .returned (w.deploy (.cassandra_DeployCassandraStatements d.Hosts
              d.Username d.Password d.Keyspace statements))⟩ := by
    intro hd; simp [ApplySync, callDeploy, hd]
  have sq : d.Driver = "sqlite" → ApplySync w d ctx statements
        = ⟨[Event.deploy (.sqlite_DeploySqliteStatements d.URI statements)],
            .returned
              (w.deploy (.sqlite_DeploySqliteStatements d.URI statements))⟩ := by
    intro hd; simp [ApplySync, callDeploy, hd]
  have rq : d.Driver = "rqlite" → ApplySync w d ctx statements
        = ⟨[Event.deploy (.rqlite_DeployRqliteStatements d.URI statements)],
            .returned
              (w.deploy (.rqlite_DeployRqliteStatements d.URI statements))⟩ := by
    intro hd; simp [ApplySync, callDeploy, hd]
  refine ⟨pg, my, ca, sq, rq, ?_⟩
  simp only [supportedDrivers, List.mem_cons, List.mem_singleton,
    List.mem_nil_iff, or_false] at h
  rcases h with hd | hd | hd | hd | hd | hd | hd
  · exact ⟨_, pg (Or.inl hd)⟩
  · exact ⟨_, my hd⟩
  · exact ⟨_, pg (Or.inr (Or.inl hd))⟩
  · exact ⟨_, ca hd⟩
  · exact ⟨_, sq hd⟩
  · exact ⟨_, rq hd⟩
  · exact ⟨_, pg (Or.inr (Or.inr hd))⟩

/-- Witness of `apply_dispatch` at driver `timescaledb`. -/
theorem apply_dispatch_witness :
    "timescaledb" ∈ supportedDrivers ∧
    ApplySync idleWorld (sampleDatabase "timescaledb") background
        (some ["CREATE TABLE a", "CREATE TABLE b"])
      = ⟨[Event.deploy (.postgres_DeployPostgresStatements "postgres://db"
            (some ["CREATE TABLE a", "CREATE TABLE b"]))],
          .returned none⟩ :=
  ⟨by decide,
    (apply_dispatch idleWorld (sampleDatabase "timescaledb") background
      (some ["CREATE TABLE a", "CREATE TABLE b"]) (by decide)).1
      (Or.inr (Or.inr rfl))⟩

/-- C9, the code at the failing input: with driver `postgres` and a spec that
has seed data and a nil schema, `PlanSyncSeedData` ends in a nil-pointer
dereference before any driver is called; the same holds for `cockroachdb` and
`timescaledb`. -/
theorem seed_plan_nil_schema_panics :
    PlanSyncSeedData idleWorld (sampleDatabase "postgres") background
        ⟨"users", none, some ⟨"rows"⟩⟩ = ⟨[], .panicked⟩ ∧
    PlanSyncSeedData idleWorld (sampleDatabase "cockroachdb") background
        ⟨"users", none, some ⟨"rows"⟩⟩ = ⟨[], .panicked⟩ ∧
    PlanSyncSeedData idleWorld (sampleDatabase "timescaledb") background
        ⟨"users", none, some ⟨"rows"⟩⟩ = ⟨[], .panicked⟩ := by
  decide

/-- C4, the claim as written fails: with driver `cassandra`, a file that
decodes to a spec whose schema has no cassandra block makes the handler return
the error "not implemented", and fixture generation ends with that error,
writing nothing. -/
theorem cassandra_fixture_file_fails :
    "cassandra" ∈ supportedDrivers ∧ hasBlock "cassandra" emptySchema = false ∧
    handleFile (bareWorld ⟨"users", some emptySchema, none⟩)
        (sampleDatabase "cassandra") (background.start "CreateFixturesSync")
        ["CREATE TABLE a"] "specs/users.yaml" ⟨"users.yaml", false⟩ none
      = ⟨[Event.readFile "specs/users.yaml"], ["CREATE TABLE a"],
          some (.New "not implemented")⟩ ∧
    CreateFixturesSync (bareWorld ⟨"users", some emptySchema, none⟩) flatTree
        (sampleDatabase "cassandra") background
      = ⟨[Event.readFile "specs/users.yaml"],
          .returned (some (.New "not implemented"))⟩ := by
  decide

/-- C4, amended: a file that decodes to a spec without schema is skipped by the
handler (no error, statements unchanged, no driver call) whatever the driver; a
file whose schema has no block for the driver is skipped for each of the six
supported drivers other than `cassandra`; after a skipped file the walk goes on
with the next entry of the directory.  With driver `cassandra` every file with
a schema makes the handler return the error "not implemented", statements
unchanged, and the walk of the directory returns that error without a visit to
the entries that follow. -/
theorem fixture_file_without_block (w : World) (d : Database) (ctx : Context)
    (statements : List String) (path : String) (info : FileInfo)
    (fileData : Bytes) (spec : TableSpec) (hdir : info.IsDir = false)
    (hread : w.readFile (readPath d info) = .ok fileData)
    (hdec : decodeTableSpec w fileData = .ok spec) :
    (spec.Schema = none →
      handleFile w d ctx statements path info none
        = ⟨[Event.readFile (readPath d info)], statements, none⟩) ∧
    (∀ schema, spec.Schema = some schema → d.Driver ∈ supportedDrivers →
      d.Driver ≠ "cassandra" → hasBlock d.Driver schema = false →
      handleFile w d ctx statements path info none
        = ⟨[Event.readFile (readPath d info)], statements, none⟩) ∧
    (∀ schema, spec.Schema = some schema → d.Driver = "cassandra" →
      handleFile w d ctx statements path info none
        = ⟨[Event.readFile (readPath d info)], statements,
            some (.New "not implemented")⟩) ∧
    (spec.Schema = none ∨
        (∃ schema, spec.Schema = some schema ∧ d.Driver ∈ supportedDrivers ∧
          d.Driver ≠ "cassandra" ∧ hasBlock d.Driver schema = false) →
      ∀ (dir : String) (rest : List (String × FsNode)) (events : List Event),
        walkEntries (handleFileFn w d ctx) dir
            ((info.Name, FsNode.file) :: rest) ⟨events, statements⟩
          = walkEntries (handleFileFn w d ctx) dir rest
              ⟨events ++ [Event.readFile (readPath d info)], statements⟩) ∧
    (∀ schema, spec.Schema = some schema → d.Driver = "cassandra" →
      ∀ (dir : String) (rest : List (String × FsNode)) (events : List Event),
        walkEntries (handleFileFn w d ctx) dir
            ((info.Name, FsNode.file) :: rest) ⟨events, statements⟩
          = (⟨events ++ [Event.readFile (readPath d info)], statements⟩,
              some (.New "not implemented"))) := by
  have hinfo : (⟨info.Name, false⟩ : FileInfo) = info := by
    cases info
    simp_all
  have nilSchema : ∀ (p : String), spec.Schema = none →
      handleFile w d ctx statements p info none
        = ⟨[Event.readFile (readPath d info)], statements, none⟩ := by
    intro p hs
    simp [handleFile, hdir, hread, hdec, handleSpec, hs]
  have noBlock : ∀ (p : String) schema, spec.Schema = some schema →
      d.Driver ∈ supportedDrivers → d.Driver ≠ "cassandra" →
      hasBlock d.Driver schema = false →
      handleFile w d ctx statements p info none
        = ⟨[Event.readFile (readPath d info)], statements, none⟩ := by
    intro p schema hs hd hc hb
    simp only [supportedDrivers, List.mem_cons, List.mem_singleton,
      List.mem_nil_iff, or_false] at hd
    rcases hd with hd | hd | hd | hd | hd | hd | hd <;>
      first
      | exact absurd hd hc
      | (simp [hasBlock, hd] at hb
         simp [handleFile, hdir, hread, hdec, handleSpec, hs, hd, hb])
  have cass : ∀ (p : String) schema, spec.Schema = some schema →
      d.Driver = "cassandra" →
      handleFile w d ctx statements p info none
        = ⟨[Event.readFile (readPath d info)], statements,
            some (.New "not implemented")⟩ := by
    intro p schema hs hd
    simp [handleFile, hdir, hread, hdec, handleSpec, hs, hd]
  refine ⟨nilSchema path, noBlock path, cass path, ?_, ?_⟩
  · intro hskip dir rest events
    have hrun : handleFile w d ctx statements
        (filepathJoin [dir, info.Name]) info none
        = ⟨[Event.readFile (readPath d info)], statements, none⟩ := by
      rcases hskip with hs | ⟨schema, hs, hd, hc, hb⟩
      · exact nilSchema _ hs
      · exact noBlock _ schema hs hd hc hb
    rw [walkEntries]
    simp only [walkNode, handleFileFn, hinfo, hrun]
  · intro schema hs hd dir rest events
    have hrun := cass (filepathJoin [dir, info.Name]) schema hs hd
    rw [walkEntries]
    simp [walkNode, handleFileFn, hinfo, hrun, FsNode.isDir]

/-- Witness of `fixture_file_without_block`: driver `postgres`, a file with the
mysql block only. -/
theorem fixture_file_without_block_witness :
    handleFile (bareWorld ⟨"users", some mysqlOnlySchema, none⟩)
        (sampleDatabase "postgres") background ["CREATE TABLE a"]
        "specs/users.yaml" ⟨"users.yaml", false⟩ none
      = ⟨[Event.readFile "specs/users.yaml"], ["CREATE TABLE a"], none⟩ :=
  (fixture_file_without_block (bareWorld ⟨"users", some mysqlOnlySchema, none⟩)
    (sampleDatabase "postgres") background ["CREATE TABLE a"]
    "specs/users.yaml" ⟨"users.yaml", false⟩ [] ⟨"users", some mysqlOnlySchema, none⟩
    rfl rfl rfl).2.1 mysqlOnlySchema rfl (by decide) (by decide) (by decide)

/-- C10, the code at the failing input: the walk of `specs` visits the file
`specs/sub/users.yaml`, the handler reads `specs/users.yaml` for it, and
fixture generation fails on the missing file though the visited one exists. -/
theorem nested_file_read_from_input_dir :
    walkVisits "specs" nestedTree
      = [⟨"specs", ⟨"specs", true⟩, none⟩, ⟨"specs/sub", ⟨"sub", true⟩, none⟩,
          ⟨"specs/sub/users.yaml", ⟨"users.yaml", false⟩, none⟩] ∧
    readPath (sampleDatabase "postgres") ⟨"users.yaml", false⟩
      = "specs/users.yaml" ∧
    nestedWorld.readFile "specs/sub/users.yaml" = .ok [] ∧
    CreateFixturesSync nestedWorld nestedTree (sampleDatabase "postgres")
        background
      = ⟨[Event.readFile "specs/users.yaml"],
          .returned (some (.Foreign "no such file or directory"))⟩ :=
  ⟨by decide, by decide, rfl, by decide⟩

/-- An error `PlanSyncTableSpec` returns is the driver's or the unknown-driver
error: when no driver returns a "failed to unmarshal spec" error, neither does
`PlanSyncTableSpec`. -/
theorem plan_table_error_origin (w : World) (d : Database) (ctx : Context)
    (spec : TableSpec)
    (hw : ∀ c e, (w.plan c).err = some e → isUnmarshalSpecError e = false)
    (e : GoError) (he : planError (PlanSyncTableSpec w d ctx spec).out = some e) :
    isUnmarshalSpecError e = false := by
  unfold PlanSyncTableSpec at he
  cases hs : spec.Schema with
  | none => simp [hs, done, planError] at he
  | some schema =>
    simp only [hs] at he
    split_ifs at he <;>
      first
      | exact hw _ e (by simpa [callPlan, planError] using he)
      | (simp [done, planError] at he
         subst he
         rfl)

/-- The same for `PlanSyncTypeSpec`. -/
theorem plan_type_error_origin (w : World) (d : Database) (spec : DataTypeSpec)
    (hw : ∀ c e, (w.plan c).err = some e → isUnmarshalSpecError e = false)
    (e : GoError) (he : planError (PlanSyncTypeSpec w d spec).out = some e) :
    isUnmarshalSpecError e = false := by
  unfold PlanSyncTypeSpec at he
  cases hs : spec.Schema with
  | none => simp [hs, done, planError] at he
  | some schema =>
    simp only [hs] at he
    split_ifs at he <;>
      first
      | exact hw _ e (by simpa [callPlan, planError] using he)
      | (simp [done, planError] at he
         subst he
         rfl)

/-- C7, the claim as written fails for the fixture file handler: when neither
form decodes, the handler returns the error of the bare decoding as it is, not
a "failed to unmarshal spec" error. -/
theorem fixture_handler_returns_bare_error :
    handleFile garbledWorld (sampleDatabase "postgres")
        (background.start "CreateFixturesSync") [] "specs/users.yaml"
        ⟨"users.yaml", false⟩ none
      = ⟨[Event.readFile "specs/users.yaml"], [],
          some (.Foreign "yaml: not a TableSpec")⟩ ∧
    isUnmarshalSpecError (.Foreign "yaml: not a TableSpec") = false := by
  decide

/-- C7, amended: `planTableSync`, `planTypeSync` and the fixture file handler
take the spec of the envelope when the envelope decodes and that spec has a
schema, and the bare decoding of the same bytes in every other case; no result
depends on the error of the envelope decoding.  When the bare decoding fails,
`planTableSync` and `planTypeSync` return its error wrapped as "failed to
unmarshal spec" (and, drivers returning no such error, in that case only),
while the handler returns the error of the bare decoding itself. -/
theorem envelope_first_loading (w : World) (d : Database) (ctx : Context)
    (specContents : Bytes) :
    (∀ t schema, w.unmarshalTable specContents = .ok t →
      t.Spec.Schema = some schema →
      planTableSync w d ctx specContents = PlanSyncTableSpec w d ctx t.Spec) ∧
    ((∀ t, w.unmarshalTable specContents = .ok t → t.Spec.Schema = none) →
      planTableSync w d ctx specContents
        = (match w.unmarshalTableSpec specContents with
          | .ok plainSpec => PlanSyncTableSpec w d ctx plainSpec
          | .error err => ⟨[], .returned
              ⟨none, some (.Wrap err "failed to unmarshal spec")⟩⟩)) ∧
    ((∀ c e, (w.plan c).err = some e → isUnmarshalSpecError e = false) →
      ((∃ e, planError (planTableSync w d ctx specContents).out = some e ∧
          isUnmarshalSpecError e = true) ↔
        ((∀ t, w.unmarshalTable specContents = .ok t → t.Spec.Schema = none) ∧
          ∃ err, w.unmarshalTableSpec specContents = .error err))) ∧
    (∀ t schema, w.unmarshalDataType specContents = .ok t →
      t.Spec.Schema = some schema →
      planTypeSync w d ctx specContents = PlanSyncTypeSpec w d t.Spec) ∧
    ((∀ t, w.unmarshalDataType specContents = .ok t → t.Spec.Schema = none) →
      planTypeSync w d ctx specContents
        = (match w.unmarshalDataTypeSpec specContents with
          | .ok plainSpec => PlanSyncTypeSpec w d plainSpec
          | .error err => ⟨[], .returned
              ⟨none, some (.Wrap err "failed to unmarshal spec")⟩⟩)) ∧
    ((∀ c e, (w.plan c).err = some e → isUnmarshalSpecError e = false) →
      ((∃ e, planError (planTypeSync w d ctx specContents).out = some e ∧
          isUnmarshalSpecError e = true) ↔
        ((∀ t, w.unmarshalDataType specContents = .ok t → t.Spec.Schema = none) ∧
          ∃ err, w.unmarshalDataTypeSpec specContents = .error err))) ∧
    (∀ (statements : List String) (path : String) (info : FileInfo),
      info.IsDir = false → w.readFile (readPath d info) = .ok specContents →
      ∀ t schema, w.unmarshalTable specContents = .ok t →
      t.Spec.Schema = some schema →
      handleFile w d ctx statements path info none
        = handleSpec w d ctx [Event.readFile (readPath d info)] statements
            t.Spec) ∧
    (∀ (statements : List String) (path : String) (info : FileInfo),
      info.IsDir = false → w.readFile (readPath d info) = .ok specContents →
      (∀ t, w.unmarshalTable specContents = .ok t → t.Spec.Schema = none) →
      handleFile w d ctx statements path info none
        = (match w.unmarshalTableSpec specContents with
          | .ok plainSpec =>
            handleSpec w d ctx [Event.readFile (readPath d info)] statements
              plainSpec
          | .error err =>
            ⟨[Event.readFile (readPath d info)], statements, some err⟩)) := by
  have tableEnv : ∀ t schema, w.unmarshalTable specContents = .ok t →
      t.Spec.Schema = some schema →
      planTableSync w d ctx specContents = PlanSyncTableSpec w d ctx t.Spec := by
    intro t schema ht hs
    simp [planTableSync, ht, hs]
  have tableBare : (∀ t, w.unmarshalTable specContents = .ok t →
      t.Spec.Schema = none) →
      planTableSync w d ctx specContents
        = (match w.unmarshalTableSpec specContents with
          | .ok plainSpec => PlanSyncTableSpec w d ctx plainSpec
          | .error err => ⟨[], .returned
              ⟨none, some (.Wrap err "failed to unmarshal spec")⟩⟩) := by
    intro h
    cases ht : w.unmarshalTable specContents with
    | error e0 =>
      cases hb : w.unmarshalTableSpec specContents <;>
        simp [planTableSync, ht, hb, done]
    | ok t =>
      have hs := h t ht
      cases hb : w.unmarshalTableSpec specContents <;>
        simp [planTableSync, ht, hs, hb, done]
  have typeEnv : ∀ t schema, w.unmarshalDataType specContents = .ok t →
      t.Spec.Schema = some schema →
      planTypeSync w d ctx specContents = PlanSyncTypeSpec w d t.Spec := by
    intro t schema ht hs
    simp [planTypeSync, ht, hs]
  have typeBare : (∀ t, w.unmarshalDataType specContents = .ok t →
      t.Spec.Schema = none) →
      planTypeSync w d ctx specContents
        = (match w.unmarshalDataTypeSpec specContents with
          | .ok plainSpec => PlanSyncTypeSpec w d plainSpec
          | .error err => ⟨[], .returned
              ⟨none, some (.Wrap err "failed to unmarshal spec")⟩⟩) := by
    intro h
    cases ht : w.unmarshalDataType specContents with
    | error e0 =>
      cases hb : w.unmarshalDataTypeSpec specContents <;>
        simp [planTypeSync, ht, hb, done]
    | ok t =>
      have hs := h t ht
      cases hb : w.unmarshalDataTypeSpec specContents <;>
        simp [planTypeSync, ht, hs, hb, done]
  refine ⟨tableEnv, tableBare, ?_, typeEnv, typeBare, ?_, ?_, ?_⟩
  · intro hw
    constructor
    · rintro ⟨e, he, hu⟩
      by_cases hfall : ∀ t, w.unmarshalTable specContents = .ok t →
          t.Spec.Schema = none
      · refine ⟨hfall, ?_⟩
        cases hb : w.unmarshalTableSpec specContents with
        | error err => exact ⟨err, rfl⟩
        | ok plainSpec =>
          rw [tableBare hfall, hb] at he
          have := plan_table_error_origin w d ctx plainSpec hw e he
          rw [this] at hu
          cases hu
      · push_neg at hfall
        obtain ⟨t, ht, hs⟩ := hfall
        cases hsc : t.Spec.Schema with
        | none => exact absurd hsc hs
        | some schema =>
          rw [tableEnv t schema ht hsc] at he
          have := plan_table_error_origin w d ctx t.Spec hw e he
          rw [this] at hu
          cases hu
    · rintro ⟨hfall, err, hb⟩
      rw [tableBare hfall, hb]
      exact ⟨_, rfl, rfl⟩
  · intro hw
    constructor
    · rintro ⟨e, he, hu⟩
      by_cases hfall : ∀ t, w.unmarshalDataType specContents = .ok t →
          t.Spec.Schema = none
      · refine ⟨hfall, ?_⟩
        cases hb : w.unmarshalDataTypeSpec specContents with
        | error err => exact ⟨err, rfl⟩
        | ok plainSpec =>
          rw [typeBare hfall, hb] at he
          have := plan_type_error_origin w d plainSpec hw e he
          rw [this] at hu
          cases hu
      · push_neg at hfall
        obtain ⟨t, ht, hs⟩ := hfall
        cases hsc : t.Spec.Schema with
        | none => exact absurd hsc hs
        | some schema =>
          rw [typeEnv t schema ht hsc] at he
          have := plan_type_error_origin w d t.Spec hw e he
          rw [this] at hu
          cases hu
    · rintro ⟨hfall, err, hb⟩
      rw [typeBare hfall, hb]
      exact ⟨_, rfl, rfl⟩
  · intro statements path info hdir hread t schema ht hs
    simp [handleFile, hdir, hread, decodeTableSpec, ht, hs]
  · intro statements path info hdir hread h
    cases ht : w.unmarshalTable specContents with
    | error e0 =>
      cases hb : w.unmarshalTableSpec specContents <;>
        simp [handleFile, hdir, hread, decodeTableSpec, ht, hb]
    | ok t =>
      have hs := h t ht
      cases hb : w.unmarshalTableSpec specContents <;>
        simp [handleFile, hdir, hread, decodeTableSpec, ht, hs, hb]

/-- Witness of `envelope_first_loading`: bytes of which neither form decodes
give the wrapped error of the bare decoding; bytes whose envelope decodes with
a schema are planned from the envelope, by `planTableSync` and by the fixture
file handler. -/
theorem envelope_first_loading_witness :
    planTableSync garbledWorld (sampleDatabase "postgres") background []
      = ⟨[], .returned ⟨none, some
          (.Wrap (.Foreign "yaml: not a TableSpec") "failed to unmarshal spec")⟩⟩ ∧
    planTableSync envelopeWorld (sampleDatabase "mysql") background []
      = ⟨[Event.plan (.mysql_PlanMysqlTable ⟨["PlanSyncTableSpec"]⟩
            "postgres://db" "users" (some ⟨"id int"⟩) none)],
          .returned ⟨some [], none⟩⟩ ∧
    handleFile envelopeWorld (sampleDatabase "mysql") background
        ["CREATE TABLE a"] "specs/users.yaml" ⟨"users.yaml", false⟩ none
      = ⟨[Event.readFile "specs/users.yaml",
          Event.plan (.mysql_CreateTableStatements background "users"
            (some ⟨"id int"⟩))],
          ["CREATE TABLE a"], none⟩ :=
  ⟨(envelope_first_loading garbledWorld (sampleDatabase "postgres") background
      []).2.1 (by intro t ht; simp [garbledWorld] at ht),
    (envelope_first_loading envelopeWorld (sampleDatabase "mysql") background
      []).1 ⟨⟨"users", some mysqlOnlySchema, none⟩⟩ mysqlOnlySchema rfl rfl,
    (envelope_first_loading envelopeWorld (sampleDatabase "mysql") background
      []).2.2.2.2.2.2.1 ["CREATE TABLE a"] "specs/users.yaml"
      ⟨"users.yaml", false⟩ rfl rfl ⟨⟨"users", some mysqlOnlySchema, none⟩⟩
      mysqlOnlySchema rfl rfl⟩

/-- The joined statements with the closing terminator are the terminated
statements, when there is at least one statement. -/
theorem join_terminated (statements : List String) (h : statements ≠ []) :
    stringsJoin statements ";\n" ++ ";\n\n"
      = concatTerminated statements ++ "\n" := by
  induction statements with
  | nil => exact absurd rfl h
  | cons a rest ih =>
    cases rest with
    | nil =>
      have e : (";\n\n" : String) = ";\n" ++ "\n" := by decide
      simp [stringsJoin, concatTerminated, e, String.append_assoc]
    | cons b more =>
      have ih2 := ih (by simp)
      simp only [stringsJoin, concatTerminated, String.append_assoc] at ih2 ⊢
      rw [ih2]

/-- The drivers' statements over two runs of events. -/
theorem collected_append (w : World) (xs ys : List Event) :
    collected w (xs ++ ys) = collected w xs ++ collected w ys := by
  induction xs with
  | nil => rfl
  | cons x xs ih => simp [collected, ih]

/-- The driver call of a dialect branch appends to `statements` what the
driver returned, when it returned no error. -/
theorem createWith_collected (w : World) (evs : List Event)
    (statements : List String) (c : PlanCall) (hevs : collected w evs = []) :
    (createWith w evs statements c).statements
      = statements ++ collected w (createWith w evs statements c).events := by
  unfold createWith
  cases he : (w.plan c).err with
  | some e => simp [collected_append, hevs, collected, eventStatements, he]
  | none => simp [collected_append, hevs, collected, eventStatements, he]

/-- The part of the handler after decoding appends to `statements` what the
driver returned without error. -/
theorem handleSpec_collected (w : World) (d : Database) (ctx : Context)
    (evs : List Event) (statements : List String) (spec : TableSpec)
    (hevs : collected w evs = []) :
    (handleSpec w d ctx evs statements spec).statements
      = statements ++ collected w (handleSpec w d ctx evs statements spec).events := by
  unfold handleSpec
  split
  · simp [hevs]
  · split_ifs <;> (try split) <;>
      first
      | exact createWith_collected w evs statements _ hevs
      | simp [hevs]

/-- A call of `handleFile` appends to `statements` what the drivers returned
without error during the call. -/
theorem handleFile_collected (w : World) (d : Database) (ctx : Context)
    (statements : List String) (path : String) (info : FileInfo)
    (err : Option GoError) :
    (handleFile w d ctx statements path info err).statements
      = statements
        ++ collected w (handleFile w d ctx statements path info err).events := by
  unfold handleFile
  split
  · simp [collected]
  · split_ifs
    · simp [collected]
    · split
      · simp [collected, eventStatements]
      · split
        · simp [collected, eventStatements]
        · exact handleSpec_collected w d ctx _ statements _ rfl

/-- The walk function keeps `statements` equal to what the drivers returned
without error so far. -/
theorem handleFileFn_collected (w : World) (d : Database) (ctx : Context)
    (s : FixtureState) (path : String) (info : FileInfo) (err : Option GoError)
    (h : s.statements = collected w s.events) :
    (handleFileFn w d ctx s path info err).1.statements
      = collected w (handleFileFn w d ctx s path info err).1.events := by
  simp only [handleFileFn, collected_append]
  rw [handleFile_collected, h]

mutual
/-- A property of the state that every call of the walk function preserves
holds after the walk of a node. -/
theorem walkNode_invariant {σ : Type} (P : σ → Prop)
    (walkFn : σ → String → FileInfo → Option GoError → σ × Option GoError)
    (hfn : ∀ s path info err, P s → P (walkFn s path info err).1)
    (path : String) (name : String) :
    ∀ (node : FsNode) (s : σ), P s → P (walkNode walkFn path name node s).1
  | .file, s, hs => by
    rw [walkNode]
    exact hfn s path ⟨name, false⟩ none hs
  | .dir entries, s, hs => by
    rw [walkNode]
    split
    · exact hfn s path ⟨name, true⟩ none hs
    · exact walkEntries_invariant P walkFn hfn path entries _
        (hfn s path ⟨name, true⟩ none hs)
/-- The same after the loop over the entries of a directory. -/
theorem walkEntries_invariant {σ : Type} (P : σ → Prop)
    (walkFn : σ → String → FileInfo → Option GoError → σ × Option GoError)
    (hfn : ∀ s path info err, P s → P (walkFn s path info err).1)
    (path : String) :
    ∀ (entries : List (String × FsNode)) (s : σ), P s →
      P (walkEntries walkFn path entries s).1
  | [], s, hs => by
    rw [walkEntries]
    exact hs
  | (name, node) :: rest, s, hs => by
    have h1 := walkNode_invariant P walkFn hfn (filepathJoin [path, name]) name
      node s hs
    rw [walkEntries]
    split
    · exact walkEntries_invariant P walkFn hfn path rest _ h1
    · split
      · exact h1
      · exact walkEntries_invariant P walkFn hfn path rest _ h1
end

/-- The same after `filepath.Walk`. -/
theorem filepathWalk_invariant {σ : Type} (P : σ → Prop)
    (walkFn : σ → String → FileInfo → Option GoError → σ × Option GoError)
    (hfn : ∀ s path info err, P s → P (walkFn s path info err).1)
    (root : String) (tree : FileTree) (s : σ) (hs : P s) :
    P (filepathWalk walkFn root tree s).1 := by
  have h1 := walkNode_invariant P walkFn hfn root tree.rootName tree.root s hs
  unfold filepathWalk
  split
  · split <;> exact h1
  · exact h1


/-- C6, the claim as written fails on the empty list: for an empty input
directory the text written to fixtures.sql is the banner followed by a lone
terminator, one `;` for no statement. -/
theorem empty_fixtures_lone_terminator :
    CreateFixturesSync idleWorld emptyTree (sampleDatabase "postgres") background
      = ⟨[Event.stat "out",
          Event.writeFile "out/fixtures.sql" (fixturesBanner ++ "\n\n ;\n\n")
            0o600],
          .returned none⟩ ∧
    fixturesBanner ++ "\n\n ;\n\n" ≠ terminatedText [] ∧
    (fixturesBanner ++ "\n\n ;\n\n").data.count ';' = 1 := by
  decide

/-- C6, amended: whenever `filepath.Walk` returns nil (also when it turned a
`SkipDir` or `SkipAll` of the handler into nil), `CreateFixturesSync` stats the
output directory, creates it when absent, and writes to fixtures.sql the
banner, "\n\n ", the collected statements joined by ";\n", and ";\n\n"; the
collected statements are what the drivers returned without error, in the order
of the calls.  For a non-empty list that text has one terminator per statement
and no other; for the empty list it is the banner followed by "\n\n ;\n\n", a
terminator without statement. -/
theorem fixtures_file_text (w : World) (tree : FileTree) (d : Database)
    (ctx : Context)
    (h : (filepathWalk (handleFileFn w d ⟨ctx.spans ++ ["CreateFixturesSync"]⟩)
      d.InputDir tree ⟨[], []⟩).2 = none) :
    let r := (filepathWalk
      (handleFileFn w d ⟨ctx.spans ++ ["CreateFixturesSync"]⟩) d.InputDir tree
      ⟨[], []⟩).1
    let text := "/* Auto generated file. Do not edit by hand. This file was generated by SchemaHero. */"
      ++ "\n\n " ++ stringsJoin r.statements ";\n" ++ ";\n\n"
    let target := filepathJoin [d.OutputDir, "fixtures.sql"]
    CreateFixturesSync w tree d ctx
      = ⟨r.events ++ [Event.stat d.OutputDir]
          ++ (if w.statNotExist d.OutputDir then
              [Event.mkdirAll d.OutputDir 0o750] else [])
          ++ [Event.writeFile target text 0o600],
        .returned (w.writeFile target text 0o600)⟩ ∧
    (CreateFixturesSync w tree d ctx).events.getLast?
      = some (Event.writeFile target text 0o600) ∧
    r.statements = collected w r.events ∧
    (r.statements ≠ [] → text = terminatedText r.statements) ∧
    (r.statements = [] → text = "/* Auto generated file. Do not edit by hand. This file was generated by SchemaHero. */" ++ "\n\n ;\n\n") := by
  intro r text target
  have hrun : CreateFixturesSync w tree d ctx
      = ⟨r.events ++ [Event.stat d.OutputDir]
          ++ (if w.statNotExist d.OutputDir then
              [Event.mkdirAll d.OutputDir 0o750] else [])
          ++ [Event.writeFile target text 0o600],
        .returned (w.writeFile target text 0o600)⟩ := by
    have h2 : (filepathWalk (handleFileFn w d (ctx.start "CreateFixturesSync"))
        d.InputDir tree ⟨[], []⟩).2 = none := h
    simp only [CreateFixturesSync, h2, fixturesText]
    rfl
  refine ⟨hrun, ?_, ?_, ?_, ?_⟩
  · rw [hrun]
    exact List.getLast?_concat _
  · exact filepathWalk_invariant (fun s => s.statements = collected w s.events)
      (handleFileFn w d ⟨ctx.spans ++ ["CreateFixturesSync"]⟩)
      (fun s path info err hs => handleFileFn_collected w d _ s path info err hs)
      d.InputDir tree ⟨[], []⟩ rfl
  · intro hne
    have hb : fixturesBanner = "/* Auto generated file. Do not edit by hand. This file was generated by SchemaHero. */" := rfl
    simp only [text, terminatedText, hb, String.append_assoc]
    rw [join_terminated r.statements hne]
  · intro hnil
    simp only [text, hnil, stringsJoin]
    decide

/-- Witness of `fixtures_file_text`: one spec file in `specs`; in the first
world the postgres driver returns two statements for it, in the second it
returns `SkipDir`, which the walk turns into nil. -/
theorem fixtures_file_text_witness :
    CreateFixturesSync fixtureWorld flatTree (sampleDatabase "postgres")
        background
      = ⟨[Event.readFile "specs/users.yaml",
          Event.plan (.postgres_CreateTableStatements "users" (some ⟨"id int"⟩)),
          Event.stat "out", Event.mkdirAll "out" 0o750,
          Event.writeFile "out/fixtures.sql"
            ("/* Auto generated file. Do not edit by hand. This file was generated by SchemaHero. */" ++ "\n\n CREATE TABLE users;\nCREATE INDEX ON users;\n\n")
            0o600],
          .returned none⟩ ∧
    CreateFixturesSync skipWorld flatTree (sampleDatabase "postgres") background
      = ⟨[Event.readFile "specs/users.yaml",
          Event.plan (.postgres_CreateTableStatements "users" (some ⟨"id int"⟩)),
          Event.stat "out",
          Event.writeFile "out/fixtures.sql" ("/* Auto generated file. Do not edit by hand. This file was generated by SchemaHero. */" ++ "\n\n ;\n\n") 0o600],
          .returned none⟩ :=
  ⟨(fixtures_file_text fixtureWorld flatTree (sampleDatabase "postgres")
      background (by decide)).1,
    (fixtures_file_text skipWorld flatTree (sampleDatabase "postgres")
      background (by decide)).1⟩

end SchemaHero
